import Mathlib

/-!
Shallow embedding of `src/python/train.py` (FFCC training and evaluation
driver) and proofs about the claims of its specification.

The module is orchestration glue: it loads two JSON configuration files
(read-or-default-and-persist), selects cross-validation folds, builds an
estimator together with train and eval specs, and runs train-and-evaluate.
External collaborator modules (`ffcc.io`, `ffcc.input`, `ffcc.model`,
`ffcc.ops`) are opaque; they are modelled by a `Collab` parameter record.
Filesystem state is a finite map of JSON files plus a list of directories;
every externally visible side effect of a run is recorded in a trace of
`Event` values, and Python exceptions are modelled by `PyError`.
-/

namespace FFCC

/-- JSON values, as produced by the Python `json` module.  Numbers are
modelled as exact rationals (decimal literals of the source read exactly). -/
inductive Json where
  | null : Json
  | bool (b : Bool) : Json
  | num (q : ℚ) : Json
  | str (s : String) : Json
  | arr (elems : List Json) : Json
  | obj (fields : List (String × Json)) : Json

/-- Python exceptions that the driver can raise. -/
inductive PyError where
  | assertionError : PyError
  | typeError (msg : String) : PyError
  | keyError (key : String) : PyError
deriving DecidableEq, Repr

/-- Observable side effects of a run, in program order. -/
inductive Event where
  /-- A `json.dump` of `value` into the file at `path`. -/
  | writeFile (path : String) (value : Json) : Event
  /-- A `tf.io.gfile.makedirs(path)` call. -/
  | makedirs (path : String) : Event
  /-- An `io.read_dataset_from_dir(dir, fold)` call. -/
  | readDataset (dir : String) (fold : Nat) : Event
  /-- A `tf.estimator.train_and_evaluate` call whose estimator was built
  with the given model directory, params and hparams. -/
  | trainAndEvaluate (model_dir : String) (params : Json) (hparams : Json) : Event

/-- Filesystem state: JSON files (path to parsed document) and directories. -/
structure FS where
  files : List (String × Json)
  dirs : List String

/-- Existence test for a regular file, as used by `tf.io.gfile.exists` on the
two configuration files. -/
def FS.fileExists (fs : FS) (p : String) : Bool :=
  (fs.files.lookup p).isSome

/-- Existence test for a directory, as used by `tf.io.gfile.exists` on the
per-fold model directories. -/
def FS.dirExists (fs : FS) (p : String) : Bool :=
  fs.dirs.contains p

/-- Overwriting write of a JSON document, as done by `json.dump`. -/
def FS.writeFile (fs : FS) (p : String) (v : Json) : FS :=
  { fs with files := (p, v) :: fs.files.filter (fun kv => kv.1 ≠ p) }

/-- Directory creation, as done by `tf.io.gfile.makedirs`. -/
def FS.makedirs (fs : FS) (p : String) : FS :=
  { fs with dirs := p :: fs.dirs }

/-- Result of running (a suffix of) `main`: the error it aborted with, if
any, the final filesystem, and the trace of events that happened. -/
structure Outcome where
  error : Option PyError
  fs : FS
  events : List Event

/-! Module-level constants of `train.py`. -/

def DATA_DIR : String := "../data/shi_gehler/preprocessed/GehlerShi"

def PROJECT_NAME : String := "GehlerShi"

def MODEL_DIR : String := "./GehlerShi_model/"

def NUM_EPOCHS : Nat := 150

/-- Number of the testing fold in the 3-fold cross validation.  The source
sets it to 1; `main` below is parameterised over the value of this constant
so that claims about other values can be stated. -/
def TEST_FOLD : Nat := 1

def NUM_UPDATES_PER_EPOCH : Nat := 10

def do_print_eval : Bool := false

/-- Path of the hyperparameter file, `PROJECT_NAME + "_hyperparams.json"`. -/
def hyperparamsFile : String := PROJECT_NAME ++ "_hyperparams.json"

/-- Path of the parameter file, `PROJECT_NAME + "_params.json"`. -/
def paramsFile : String := PROJECT_NAME ++ "_params.json"

/-- Model of `os.path.join` for the joins performed by the source, where the
second component is always the relative name `fold<N>`: append, inserting a
separator unless the first component already ends with one. -/
def os_path_join (a b : String) : String :=
  if a.data.getLast? = some '/' then a ++ b else a ++ "/" ++ b

/-- Default hyperparameters written by `main` when the hyperparameter file is
absent: the empty JSON list (source line 169, `hparams = []`). -/
def hparams_default : Json := Json.arr []

/-- Default parameters written by `main` when the parameter file is absent
(source lines 178 to 187). -/
def params_default : Json :=
  Json.obj
    [("first_bin", Json.num (-0.4375)),
     ("nbins", Json.num 64),
     ("bin_size", Json.num 0.03125),
     ("variance", Json.num 0.0833333333),
     ("ellipse_params",
       Json.obj
         [("w_mat",
            Json.arr
              [Json.num 2.2869704, Json.num 0.7841647, Json.num 0.7841649,
               Json.num 1.3999774]),
          ("b_vec", Json.arr [Json.num (-1.2658409), Json.num (-1.2520925)])]),
     ("extended_feature_bins", Json.arr [Json.num 0.0]),
     ("extended_vector_length", Json.num 1)]

/-- Read-or-default-and-persist step for one configuration file: if the file
exists its parsed contents are returned and nothing is written, otherwise the
default is written to the file and returned.  Returns the value bound, the
resulting filesystem and the write events performed. -/
def configBootstrap (fs : FS) (path : String) (default : Json) :
    Json × FS × List Event :=
  if h : (fs.files.lookup path).isSome then
    ((fs.files.lookup path).get h, fs, [])
  else
    (default, fs.writeFile path default, [Event.writeFile path default])

/-- Configuration-loading phase of `main` (source lines 163 to 189):
bootstrap the hyperparameter file, then the parameter file.  Returns the
pair (hparams, params), the resulting filesystem and the events. -/
def loadConfigs (fs : FS) : (Json × Json) × FS × List Event :=
  let h := configBootstrap fs hyperparamsFile hparams_default
  let p := configBootstrap h.2.1 paramsFile params_default
  ((h.1, p.1), p.2.1, h.2.2 ++ p.2.2)

/-- Python subscripting `j[key]` with a string key: an object yields the
value of the key or raises KeyError; a list raises TypeError (list indices
must be integers); other values raise TypeError (not subscriptable). -/
def jsonIndexStr (j : Json) (key : String) : Except PyError Json :=
  match j with
  | Json.obj fields =>
      match fields.lookup key with
      | some v => Except.ok v
      | none => Except.error (PyError.keyError key)
  | Json.arr _ =>
      Except.error (PyError.typeError "list indices must be integers or slices, not str")
  | _ => Except.error (PyError.typeError "object is not subscriptable")

/-- Checkpoint and summary cadence (source lines 86 to 87):
`max(1, math.ceil(total_training_iterations / NUM_UPDATES_PER_EPOCH))`,
with Python true division modelled as exact rational division. -/
def update_steps (total_training_iterations : Nat) : Nat :=
  max 1 (Int.toNat ⌈(total_training_iterations : ℚ) / (NUM_UPDATES_PER_EPOCH : ℚ)⌉)

/-- Opaque collaborator modules.  `read_dataset_from_dir` models
`io.read_dataset_from_dir(data_dir, fold)` returning train set, train
labels, eval set, eval labels; `input_builder_stratified` models
`ffcc_input.input_builder_stratified(set, labels, batch_size, num_epochs)`
returning an opaque input function and the total iteration count. -/
structure Collab where
  read_dataset_from_dir :
    String → Nat → List Json × List Json × List Json × List Json
  input_builder_stratified : List Json → List Json → Json → Nat → Unit × Nat

/-- Run configuration (the two cadence fields set by the source). -/
structure RunConfig where
  save_checkpoints_steps : Nat
  save_summary_steps : Nat
deriving DecidableEq, Repr

/-- Train spec: the source sets only `max_steps`. -/
structure TrainSpec where
  max_steps : Nat
deriving DecidableEq, Repr

/-- Eval spec fields set by the source. -/
structure EvalSpec where
  name : String
  steps : Nat
  start_delay_secs : Nat
  throttle_secs : Nat
deriving DecidableEq, Repr

/-- Estimator: model directory, the hparams handed to the model builder,
the params, and the run configuration. -/
structure Estimator where
  model_dir : String
  model_fn_hparams : Json
  params : Json
  config : RunConfig

/-- Embedding of `train_and_eval_fn` (source lines 59 to 116).  It reads
`batch_size` from hparams (Python subscripting, which can raise), calls the
input builder for the train and eval sets, computes the update cadence and
returns the estimator and the two specs. -/
def train_and_eval_fn (collab : Collab) (params hparams : Json)
    (train_set train_label eval_set eval_label : List Json)
    (model_dir : String) :
    Except PyError (Estimator × TrainSpec × EvalSpec) := do
  let batch_size ← jsonIndexStr hparams "batch_size"
  let total_training_iterations :=
    (collab.input_builder_stratified train_set train_label batch_size
      NUM_EPOCHS).2
  let _ := collab.input_builder_stratified eval_set eval_label (Json.num 1) 1
  let us := update_steps total_training_iterations
  let run_config : RunConfig :=
    { save_checkpoints_steps := us, save_summary_steps := us }
  let train_spec : TrainSpec := { max_steps := total_training_iterations }
  let eval_steps : Nat := 10
  let eval_spec : EvalSpec :=
    { name := "default", steps := eval_steps, start_delay_secs := 0,
      throttle_secs := 0 }
  let estimator : Estimator :=
    { model_dir := model_dir, model_fn_hparams := hparams, params := params,
      config := run_config }
  Except.ok (estimator, train_spec, eval_spec)

/-- Per-fold model directory path, `os.path.join(MODEL_DIR, "fold%d" % fold)`. -/
def foldDir (fold : Nat) : String :=
  os_path_join MODEL_DIR ("fold" ++ toString fold)

/-- Guarded directory creation performed by `main` for a fold (source lines
195 to 197 and 211 to 213): create the per-fold subdirectory only when it
does not already exist.  Returns the new filesystem and the events. -/
def ensureModelDir (fs : FS) (fold : Nat) : FS × List Event :=
  let current_model_dir := foldDir fold
  if fs.dirExists current_model_dir then (fs, [])
  else (fs.makedirs current_model_dir, [Event.makedirs current_model_dir])

/-- Error raised by the call at source line 203: the `TEST_FOLD == 0` branch
calls `train_and_eval_fn` with six positional arguments while its definition
has seven required positional parameters, so Python raises TypeError at the
call site, before the body of `train_and_eval_fn` runs. -/
def foldZeroCallError : PyError :=
  PyError.typeError
    "train_and_eval_fn missing 1 required positional argument: model_dir"

/-- Body of one iteration of the `TEST_FOLD == 0` loop (source lines 193 to
208): create the fold subdirectory if needed, read the dataset, then call
`train_and_eval_fn` with six arguments, which raises TypeError. -/
def foldZeroIter (collab : Collab) (fold : Nat) (fs : FS) (tr : List Event) :
    Outcome :=
  let step := ensureModelDir fs fold
  let _ := collab.read_dataset_from_dir DATA_DIR fold
  let tr := tr ++ step.2 ++ [Event.readDataset DATA_DIR fold]
  { error := some foldZeroCallError, fs := step.1, events := tr }

/-- Loop `for test_fold in range(1, 4)` of the `TEST_FOLD == 0` branch; an
uncaught exception in an iteration aborts the loop and the process. -/
def foldZeroLoop (collab : Collab) (folds : List Nat) (fs : FS)
    (tr : List Event) : Outcome :=
  match folds with
  | [] => { error := none, fs := fs, events := tr }
  | fold :: rest =>
      let o := foldZeroIter collab fold fs tr
      match o.error with
      | some _ => o
      | none => foldZeroLoop collab rest o.fs o.events

/-- Fold-selection phase of `main` (source lines 192 to 225), run after the
configuration files were loaded.  With `testFold = 0` the three-fold loop
runs; otherwise a single pass for `testFold` runs: directory creation,
dataset read, `train_and_eval_fn` with the per-fold directory as model
directory and, since `do_print_eval` is false, `train_and_evaluate`. -/
def mainFoldPhase (collab : Collab) (params hparams : Json) (testFold : Nat)
    (fs : FS) (tr : List Event) : Outcome :=
  if testFold = 0 then
    foldZeroLoop collab [1, 2, 3] fs tr
  else
    let current_model_dir := foldDir testFold
    let step := ensureModelDir fs testFold
    let data := collab.read_dataset_from_dir DATA_DIR testFold
    let tr := tr ++ step.2 ++ [Event.readDataset DATA_DIR testFold]
    match train_and_eval_fn collab params hparams data.1 data.2.1 data.2.2.1
        data.2.2.2 current_model_dir with
    | Except.error e => { error := some e, fs := step.1, events := tr }
    | Except.ok (estimator, _train_spec, _eval_spec) =>
        if do_print_eval then
          { error := some (PyError.typeError
              "print_eval missing 2 required positional arguments"),
            fs := step.1, events := tr }
        else
          { error := none, fs := step.1,
            events := tr ++ [Event.trainAndEvaluate estimator.model_dir
              estimator.params estimator.model_fn_hparams] }

/-- Part of `main` after the CUDA assertion: configuration bootstrap followed
by the fold phase. -/
def mainBody (collab : Collab) (testFold : Nat) (fs : FS) : Outcome :=
  let cfg := loadConfigs fs
  mainFoldPhase collab cfg.1.2 cfg.1.1 testFold cfg.2.1 cfg.2.2

/-- Embedding of `main` (source lines 155 to 225).  `builtWithCuda` is the
value of `tf.test.is_built_with_cuda()`; the assertion at source line 161
aborts the process with AssertionError before anything else when it is true.
`testFold` is the value of the module constant `TEST_FOLD`. -/
def main (collab : Collab) (builtWithCuda : Bool) (testFold : Nat)
    (fs : FS) : Outcome :=
  if builtWithCuda then { error := some PyError.assertionError, fs := fs, events := [] }
  else mainBody collab testFold fs

/-- Environment of the process, mapping variable names to values. -/
def Env : Type := String → Option String

/-- Effect of importing the module on the process environment (source line
31): set CUDA_VISIBLE_DEVICES to -1.  No other statement of the module
writes to `os.environ`, so this function is the whole effect. -/
def moduleLoad (env : Env) : Env :=
  fun k => if k = "CUDA_VISIBLE_DEVICES" then some "-1" else env k

/-! Renderings of phrases of the specification, used for refinement-style
claims.  They follow the words of the spec, not the source. -/

/-- Spec phrase rendering: the value is a JSON object. -/
def Json.isObj : Json → Bool
  | Json.obj _ => true
  | _ => false

/-- Spec phrase rendering: an atomic JSON value (no nesting). -/
def Json.isAtom : Json → Bool
  | Json.null => true
  | Json.bool _ => true
  | Json.num _ => true
  | Json.str _ => true
  | _ => false

/-- Spec phrase rendering: a flat JSON object, that is an object all of
whose field values are atomic. -/
def Json.isFlatObj : Json → Bool
  | Json.obj fields => fields.all (fun kv => kv.2.isAtom)
  | _ => false

/-- Keys of a JSON object, in order. -/
def Json.keys : Json → List String
  | Json.obj fields => fields.map Prod.fst
  | _ => []

/-- Selector for makedirs events. -/
def Event.isMakedirs : Event → Bool
  | Event.makedirs _ => true
  | _ => false

/-- Selector for train-and-evaluate events. -/
def Event.isTrainEval : Event → Bool
  | Event.trainAndEvaluate _ _ _ => true
  | _ => false

/-- Selector for file-write events. -/
def Event.isWrite : Event → Bool
  | Event.writeFile _ _ => true
  | _ => false

/-! Concrete inputs used by witnesses and counterexamples. -/

/-- Trivial collaborator: empty datasets, input builder reporting 95 total
training iterations. -/
def collab0 : Collab :=
  { read_dataset_from_dir := fun _ _ => ([], [], [], []),
    input_builder_stratified := fun _ _ _ _ => ((), 95) }

/-- Empty filesystem, the state of a first run. -/
def fs0 : FS := { files := [], dirs := [] }

/-- Hyperparameter document with a batch size, as a working run would load. -/
def hparams0 : Json := Json.obj [("batch_size", Json.num 16)]

/-- Filesystem of a prepared run: both configuration files present. -/
def fs1 : FS :=
  { files := [(hyperparamsFile, hparams0), (paramsFile, params_default)],
    dirs := [] }

/-- Filesystem whose fold1 model directory already exists. -/
def fs2 : FS := { files := [], dirs := [foldDir 1] }

/-! Helper lemmas. -/

/-- Ceiling of a natural number divided by ten, as a natural division. -/
lemma ceil_natCast_div_ten (t : Nat) :
    Int.toNat ⌈(t : ℚ) / (10 : ℚ)⌉ = (t + 9) / 10 := by
  have h1 : ⌈(t : ℚ) / (10 : ℚ)⌉ = -⌊-((t : ℚ) / (10 : ℚ))⌋ := by
    rw [Int.floor_neg, neg_neg]
  have h2 : -((t : ℚ) / (10 : ℚ)) = ((-(t : ℤ) : ℤ) : ℚ) / ((10 : ℕ) : ℚ) := by
    push_cast
    ring
  rw [h1, h2, Rat.floor_intCast_div_natCast]
  omega

/-- Closed form of the cadence: rational ceiling equals ceiling division. -/
lemma update_steps_eq (t : Nat) :
    update_steps t
      = max 1 ((t + NUM_UPDATES_PER_EPOCH - 1) / NUM_UPDATES_PER_EPOCH) := by
  unfold update_steps NUM_UPDATES_PER_EPOCH
  rw [show ((10 : Nat) : ℚ) = (10 : ℚ) by norm_num]
  rw [ceil_natCast_div_ten]
  omega

/-- Lookup of a key survives filtering away a different key. -/
lemma lookup_filter_ne (l : List (String × Json)) (p k : String) (h : k ≠ p) :
    (l.filter (fun kv => kv.1 ≠ p)).lookup k = l.lookup k := by
  induction l with
  | nil => rfl
  | cons kv rest ih =>
      obtain ⟨k1, v1⟩ := kv
      simp only [ne_eq, decide_not] at ih ⊢
      by_cases hp : k1 = p
      · subst hp
        have hk : (k == k1) = false := beq_eq_false_iff_ne.mpr h
        simp [List.filter_cons, List.lookup, hk, ih]
      · have hp2 : (decide (k1 = p)) = false := decide_eq_false hp
        by_cases hk : k = k1
        · subst hk
          simp [List.filter_cons, hp2, List.lookup]
        · have hk2 : (k == k1) = false := beq_eq_false_iff_ne.mpr hk
          simp [List.filter_cons, hp2, List.lookup, hk2, ih]

/-- Writing a file stores its value. -/
lemma lookup_writeFile_self (fs : FS) (p : String) (v : Json) :
    (fs.writeFile p v).files.lookup p = some v := by
  simp [FS.writeFile, List.lookup]

/-- Writing a file leaves other files unchanged. -/
lemma lookup_writeFile_ne (fs : FS) (p k : String) (v : Json) (h : k ≠ p) :
    (fs.writeFile p v).files.lookup k = fs.files.lookup k := by
  have hk : (k == p) = false := beq_eq_false_iff_ne.mpr h
  have h2 := lookup_filter_ne fs.files p k h
  simp only [ne_eq, decide_not] at h2
  simp [FS.writeFile, List.lookup, hk, h2]

/-- Writing a file does not touch directories. -/
lemma dirs_writeFile (fs : FS) (p : String) (v : Json) :
    (fs.writeFile p v).dirs = fs.dirs := rfl

/-- Creating a directory does not touch files. -/
lemma files_makedirs (fs : FS) (p : String) :
    (fs.makedirs p).files = fs.files := rfl

/-- Path names of the two configuration files differ. -/
lemma hyperparamsFile_ne_paramsFile : hyperparamsFile ≠ paramsFile := by
  decide

/-- Equation for the bootstrap when the file exists. -/
lemma configBootstrap_some (fs : FS) (path : String) (d j : Json)
    (h : fs.files.lookup path = some j) :
    configBootstrap fs path d = (j, fs, []) := by
  simp [configBootstrap, h]

/-- Equation for the bootstrap when the file is absent. -/
lemma configBootstrap_none (fs : FS) (path : String) (d : Json)
    (h : fs.files.lookup path = none) :
    configBootstrap fs path d
      = (d, fs.writeFile path d, [Event.writeFile path d]) := by
  simp [configBootstrap, h]

/-- Equation for `main` when CUDA support is absent. -/
lemma main_not_cuda (collab : Collab) (tf : Nat) (fs : FS) :
    main collab false tf fs = mainBody collab tf fs := rfl

/-- Trace shape of the fold phase: it only appends events to the trace it
is given, and none of the appended events is a file write. -/
lemma mainFoldPhase_events_prefix (collab : Collab) (params hparams : Json)
    (tf : Nat) (fs : FS) (tr : List Event) :
    ∃ rest, (mainFoldPhase collab params hparams tf fs tr).events = tr ++ rest
      ∧ ∀ e ∈ rest, e.isWrite = false := by
  unfold mainFoldPhase
  by_cases h0 : tf = 0
  · rw [if_pos h0]
    refine ⟨(ensureModelDir fs 1).2 ++ [Event.readDataset DATA_DIR 1], ?_, ?_⟩
    · simp [foldZeroLoop, foldZeroIter, List.append_assoc]
    · intro e he
      unfold ensureModelDir at he
      by_cases hd : fs.dirExists (foldDir 1)
      · simp [hd] at he
        simp [he, Event.isWrite]
      · simp [hd] at he
        rcases he with he | he <;> simp [he, Event.isWrite]
  · rw [if_neg h0]
    cases htr : train_and_eval_fn collab params hparams
        (collab.read_dataset_from_dir DATA_DIR tf).1
        (collab.read_dataset_from_dir DATA_DIR tf).2.1
        (collab.read_dataset_from_dir DATA_DIR tf).2.2.1
        (collab.read_dataset_from_dir DATA_DIR tf).2.2.2 (foldDir tf) with
    | error e =>
        refine ⟨(ensureModelDir fs tf).2 ++ [Event.readDataset DATA_DIR tf],
          ?_, ?_⟩
        · simp [htr, List.append_assoc]
        · intro e he
          unfold ensureModelDir at he
          by_cases hd : fs.dirExists (foldDir tf)
          · simp [hd] at he
            simp [he, Event.isWrite]
          · simp [hd] at he
            rcases he with he | he <;> simp [he, Event.isWrite]
    | ok r =>
        obtain ⟨est, tsp, esp⟩ := r
        refine ⟨(ensureModelDir fs tf).2
          ++ [Event.readDataset DATA_DIR tf,
              Event.trainAndEvaluate est.model_dir est.params
                est.model_fn_hparams], ?_, ?_⟩
        · simp [htr, do_print_eval, List.append_assoc]
        · intro e he
          unfold ensureModelDir at he
          by_cases hd : fs.dirExists (foldDir tf)
          · simp [hd] at he
            rcases he with he | he <;> simp [he, Event.isWrite]
          · simp [hd] at he
            rcases he with he | he | he <;> simp [he, Event.isWrite]

/-- Configuration loading when both files are absent. -/
lemma loadConfigs_none_none (fs : FS)
    (h1 : fs.files.lookup hyperparamsFile = none)
    (h2 : fs.files.lookup paramsFile = none) :
    loadConfigs fs
      = ((hparams_default, params_default),
         (fs.writeFile hyperparamsFile hparams_default).writeFile paramsFile
           params_default,
         [Event.writeFile hyperparamsFile hparams_default,
          Event.writeFile paramsFile params_default]) := by
  have e1 := configBootstrap_none fs hyperparamsFile hparams_default h1
  have h2b : (fs.writeFile hyperparamsFile hparams_default).files.lookup
      paramsFile = none := by
    rw [lookup_writeFile_ne _ _ _ _ (Ne.symm hyperparamsFile_ne_paramsFile)]
    exact h2
  have e2 := configBootstrap_none _ paramsFile params_default h2b
  simp [loadConfigs, e1, e2]

/-- Configuration loading when only the parameter file is present. -/
lemma loadConfigs_none_some (fs : FS) (jp : Json)
    (h1 : fs.files.lookup hyperparamsFile = none)
    (h2 : fs.files.lookup paramsFile = some jp) :
    loadConfigs fs
      = ((hparams_default, jp),
         fs.writeFile hyperparamsFile hparams_default,
         [Event.writeFile hyperparamsFile hparams_default]) := by
  have e1 := configBootstrap_none fs hyperparamsFile hparams_default h1
  have h2b : (fs.writeFile hyperparamsFile hparams_default).files.lookup
      paramsFile = some jp := by
    rw [lookup_writeFile_ne _ _ _ _ (Ne.symm hyperparamsFile_ne_paramsFile)]
    exact h2
  have e2 := configBootstrap_some _ paramsFile params_default jp h2b
  simp [loadConfigs, e1, e2]

/-- Configuration loading when only the hyperparameter file is present. -/
lemma loadConfigs_some_none (fs : FS) (j : Json)
    (h1 : fs.files.lookup hyperparamsFile = some j)
    (h2 : fs.files.lookup paramsFile = none) :
    loadConfigs fs
      = ((j, params_default),
         fs.writeFile paramsFile params_default,
         [Event.writeFile paramsFile params_default]) := by
  have e1 := configBootstrap_some fs hyperparamsFile hparams_default j h1
  have e2 := configBootstrap_none fs paramsFile params_default h2
  simp [loadConfigs, e1, e2]

/-- Configuration loading when both files are present. -/
lemma loadConfigs_some_some (fs : FS) (j jp : Json)
    (h1 : fs.files.lookup hyperparamsFile = some j)
    (h2 : fs.files.lookup paramsFile = some jp) :
    loadConfigs fs = ((j, jp), fs, []) := by
  have e1 := configBootstrap_some fs hyperparamsFile hparams_default j h1
  have e2 := configBootstrap_some fs paramsFile params_default jp h2
  simp [loadConfigs, e1, e2]

/-- Events of the configuration phase are kept in the trace of main. -/
lemma mem_main_events_of_mem_cfg (collab : Collab) (tf : Nat) (fs : FS)
    (e : Event) (he : e ∈ (loadConfigs fs).2.2) :
    e ∈ (main collab false tf fs).events := by
  rw [main_not_cuda]
  unfold mainBody
  obtain ⟨rest, hr, -⟩ := mainFoldPhase_events_prefix collab
    (loadConfigs fs).1.2 (loadConfigs fs).1.1 tf (loadConfigs fs).2.1
    (loadConfigs fs).2.2
  rw [hr]
  exact List.mem_append_left _ he

/-- Successful run of train_and_eval_fn when the hyperparameters are an
object containing a batch size. -/
lemma train_and_eval_fn_ok (collab : Collab) (params : Json)
    (fields : List (String × Json)) (bs : Json)
    (a b c d : List Json) (md : String)
    (hbs : fields.lookup "batch_size" = some bs) :
    train_and_eval_fn collab params (Json.obj fields) a b c d md
      = Except.ok
          ({ model_dir := md, model_fn_hparams := Json.obj fields,
             params := params,
             config :=
               { save_checkpoints_steps :=
                   update_steps (collab.input_builder_stratified a b bs
                     NUM_EPOCHS).2,
                 save_summary_steps :=
                   update_steps (collab.input_builder_stratified a b bs
                     NUM_EPOCHS).2 } },
           { max_steps := (collab.input_builder_stratified a b bs
               NUM_EPOCHS).2 },
           { name := "default", steps := 10, start_delay_secs := 0,
             throttle_secs := 0 }) := by
  have hj : jsonIndexStr (Json.obj fields) "batch_size" = Except.ok bs := by
    simp [jsonIndexStr, hbs]
  unfold train_and_eval_fn
  rw [hj]
  rfl

/-- Outcome of the fold phase for a nonzero fold when the hyperparameters
carry a batch size and the fold directory does not exist yet. -/
lemma mainFoldPhase_nonzero_ok (collab : Collab) (params : Json)
    (fields : List (String × Json)) (bs : Json) (tf : Nat) (fs : FS)
    (tr : List Event) (h0 : tf ≠ 0)
    (hbs : fields.lookup "batch_size" = some bs)
    (hdir : fs.dirExists (foldDir tf) = false) :
    mainFoldPhase collab params (Json.obj fields) tf fs tr
      = { error := none,
          fs := fs.makedirs (foldDir tf),
          events := tr
            ++ [Event.makedirs (foldDir tf), Event.readDataset DATA_DIR tf,
                Event.trainAndEvaluate (foldDir tf) params
                  (Json.obj fields)] } := by
  unfold mainFoldPhase
  rw [if_neg h0]
  simp only [hdir, Bool.false_eq_true, if_false]
  rw [train_and_eval_fn_ok collab params fields bs _ _ _ _ _ hbs]
  simp [do_print_eval, ensureModelDir, hdir]

/-! Claim theorems. -/

/-- C2: for every total iteration count returned by the input builder and
the fixed updates-per-epoch constant, the checkpoint and summary cadence in
the run configuration equals max(1, ceil(total iterations divided by updates
per epoch)); in particular 95 total iterations with 10 updates per epoch
give 10, and 5 total iterations with 10 updates per epoch give 1. -/
theorem claim2_update_cadence (collab : Collab) (params hparams bs : Json)
    (train_set train_label eval_set eval_label : List Json)
    (model_dir : String)
    (hbs : jsonIndexStr hparams "batch_size" = Except.ok bs) :
    ∃ est tsp esp,
      train_and_eval_fn collab params hparams train_set train_label eval_set
          eval_label model_dir = Except.ok (est, tsp, esp)
      ∧ est.config.save_checkpoints_steps
          = max 1 (((collab.input_builder_stratified train_set train_label bs
              NUM_EPOCHS).2 + NUM_UPDATES_PER_EPOCH - 1)
              / NUM_UPDATES_PER_EPOCH)
      ∧ est.config.save_summary_steps = est.config.save_checkpoints_steps
      ∧ update_steps 95 = 10 ∧ update_steps 5 = 1 := by
  unfold train_and_eval_fn
  rw [hbs]
  refine ⟨_, _, _, rfl, ?_, rfl, ?_, ?_⟩
  · exact update_steps_eq _
  · rw [update_steps_eq]
    decide
  · rw [update_steps_eq]
    decide

/-- Witness for C2 at a concrete hyperparameter document and collaborator. -/
theorem claim2_update_cadence_witness :
    jsonIndexStr hparams0 "batch_size" = Except.ok (Json.num 16)
    ∧ ∃ est tsp esp,
        train_and_eval_fn collab0 params_default hparams0 [] [] [] []
            (foldDir 1) = Except.ok (est, tsp, esp)
        ∧ est.config.save_checkpoints_steps
            = max 1 (((collab0.input_builder_stratified [] [] (Json.num 16)
                NUM_EPOCHS).2 + NUM_UPDATES_PER_EPOCH - 1)
                / NUM_UPDATES_PER_EPOCH)
        ∧ est.config.save_summary_steps = est.config.save_checkpoints_steps
        ∧ update_steps 95 = 10 ∧ update_steps 5 = 1 :=
  ⟨rfl, claim2_update_cadence collab0 params_default hparams0 (Json.num 16)
    [] [] [] [] (foldDir 1) rfl⟩

/-- C3: for each configuration file that is absent when main starts, main
writes the hardcoded default to the file, and the written value equals the
value bound to hparams respectively params, which main then hands to the
fold phase and to train_and_eval_fn for the rest of the same run. -/
theorem claim3_default_written (collab : Collab) (tf : Nat) (fs : FS) :
    (fs.files.lookup hyperparamsFile = none →
       (loadConfigs fs).1.1 = hparams_default
       ∧ ((loadConfigs fs).2.1).files.lookup hyperparamsFile
           = some hparams_default
       ∧ Event.writeFile hyperparamsFile hparams_default
           ∈ (main collab false tf fs).events)
    ∧ (fs.files.lookup paramsFile = none →
       (loadConfigs fs).1.2 = params_default
       ∧ ((loadConfigs fs).2.1).files.lookup paramsFile = some params_default
       ∧ Event.writeFile paramsFile params_default
           ∈ (main collab false tf fs).events) := by
  constructor
  · intro h1
    rcases hpp : fs.files.lookup paramsFile with _ | jp
    · have heq := loadConfigs_none_none fs h1 hpp
      refine ⟨by rw [heq], ?_, ?_⟩
      · rw [heq]
        rw [lookup_writeFile_ne _ _ _ _ hyperparamsFile_ne_paramsFile]
        exact lookup_writeFile_self _ _ _
      · apply mem_main_events_of_mem_cfg
        rw [heq]
        simp
    · have heq := loadConfigs_none_some fs jp h1 hpp
      refine ⟨by rw [heq], ?_, ?_⟩
      · rw [heq]
        exact lookup_writeFile_self _ _ _
      · apply mem_main_events_of_mem_cfg
        rw [heq]
        simp
  · intro h2
    rcases hhp : fs.files.lookup hyperparamsFile with _ | j
    · have heq := loadConfigs_none_none fs hhp h2
      refine ⟨by rw [heq], ?_, ?_⟩
      · rw [heq]
        exact lookup_writeFile_self _ _ _
      · apply mem_main_events_of_mem_cfg
        rw [heq]
        simp
    · have heq := loadConfigs_some_none fs j hhp h2
      refine ⟨by rw [heq], ?_, ?_⟩
      · rw [heq]
        exact lookup_writeFile_self _ _ _
      · apply mem_main_events_of_mem_cfg
        rw [heq]
        simp

/-- Witness for C3 on the empty filesystem: both files are absent, both
defaults are written and bound. -/
theorem claim3_default_written_witness :
    fs0.files.lookup hyperparamsFile = none
    ∧ (loadConfigs fs0).1.1 = hparams_default
    ∧ ((loadConfigs fs0).2.1).files.lookup hyperparamsFile
        = some hparams_default
    ∧ Event.writeFile hyperparamsFile hparams_default
        ∈ (main collab0 false 1 fs0).events
    ∧ (loadConfigs fs0).1.2 = params_default
    ∧ Event.writeFile paramsFile params_default
        ∈ (main collab0 false 1 fs0).events :=
  ⟨rfl, ((claim3_default_written collab0 1 fs0).1 rfl).1,
    ((claim3_default_written collab0 1 fs0).1 rfl).2.1,
    ((claim3_default_written collab0 1 fs0).1 rfl).2.2,
    ((claim3_default_written collab0 1 fs0).2 rfl).1,
    ((claim3_default_written collab0 1 fs0).2 rfl).2.2⟩

/-- C4: for each configuration file that exists when main starts, its JSON
contents are loaded verbatim as the configuration value and main performs no
write to that file; and the bootstrap is idempotent: rerunning the
configuration phase on the filesystem a first run produced returns the same
values, changes nothing and writes nothing. -/
theorem claim4_load_verbatim (collab : Collab) (cuda : Bool) (tf : Nat)
    (fs : FS) (j jp : Json) :
    (fs.files.lookup hyperparamsFile = some j →
       (loadConfigs fs).1.1 = j
       ∧ ∀ v, Event.writeFile hyperparamsFile v
           ∉ (main collab cuda tf fs).events)
    ∧ (fs.files.lookup paramsFile = some jp →
       (loadConfigs fs).1.2 = jp
       ∧ ∀ v, Event.writeFile paramsFile v ∉ (main collab cuda tf fs).events)
    ∧ loadConfigs (loadConfigs fs).2.1
        = ((loadConfigs fs).1, (loadConfigs fs).2.1, []) := by
  have hnw : ∀ p v, (∀ e ∈ (loadConfigs fs).2.2, e ≠ Event.writeFile p v) →
      Event.writeFile p v ∉ (main collab cuda tf fs).events := by
    intro p v hcfg
    cases cuda
    · rw [main_not_cuda]
      unfold mainBody
      obtain ⟨rest, hr, hw⟩ := mainFoldPhase_events_prefix collab
        (loadConfigs fs).1.2 (loadConfigs fs).1.1 tf (loadConfigs fs).2.1
        (loadConfigs fs).2.2
      rw [hr]
      intro hmem
      rcases List.mem_append.mp hmem with hc | hrest
      · exact hcfg _ hc rfl
      · have := hw _ hrest
        simp [Event.isWrite] at this
    · intro hmem
      simp [main] at hmem
  refine ⟨?_, ?_, ?_⟩
  · intro h1
    rcases hpp : fs.files.lookup paramsFile with _ | jp2
    · have heq := loadConfigs_some_none fs j h1 hpp
      refine ⟨by rw [heq], ?_⟩
      intro v
      apply hnw
      rw [heq]
      intro e he
      simp at he
      rw [he]
      intro hcontra
      injection hcontra with hpath hval
      exact hyperparamsFile_ne_paramsFile hpath.symm
    · have heq := loadConfigs_some_some fs j jp2 h1 hpp
      refine ⟨by rw [heq], ?_⟩
      intro v
      apply hnw
      rw [heq]
      intro e he
      simp at he
  · intro h2
    rcases hhp : fs.files.lookup hyperparamsFile with _ | j2
    · have heq := loadConfigs_none_some fs jp hhp h2
      refine ⟨by rw [heq], ?_⟩
      intro v
      apply hnw
      rw [heq]
      intro e he
      simp at he
      rw [he]
      intro hcontra
      injection hcontra with hpath hval
      exact hyperparamsFile_ne_paramsFile hpath
    · have heq := loadConfigs_some_some fs j2 jp hhp h2
      refine ⟨by rw [heq], ?_⟩
      intro v
      apply hnw
      rw [heq]
      intro e he
      simp at he
  · rcases hhp : fs.files.lookup hyperparamsFile with _ | j2
    · rcases hpp : fs.files.lookup paramsFile with _ | jp2
      · have heq := loadConfigs_none_none fs hhp hpp
        rw [heq]
        apply loadConfigs_some_some
        · rw [lookup_writeFile_ne _ _ _ _ hyperparamsFile_ne_paramsFile]
          exact lookup_writeFile_self _ _ _
        · exact lookup_writeFile_self _ _ _
      · have heq := loadConfigs_none_some fs jp2 hhp hpp
        rw [heq]
        apply loadConfigs_some_some
        · exact lookup_writeFile_self _ _ _
        · rw [lookup_writeFile_ne _ _ _ _
            (Ne.symm hyperparamsFile_ne_paramsFile)]
          exact hpp
    · rcases hpp : fs.files.lookup paramsFile with _ | jp2
      · have heq := loadConfigs_some_none fs j2 hhp hpp
        rw [heq]
        apply loadConfigs_some_some
        · rw [lookup_writeFile_ne _ _ _ _ hyperparamsFile_ne_paramsFile]
          exact hhp
        · exact lookup_writeFile_self _ _ _
      · have heq := loadConfigs_some_some fs j2 jp2 hhp hpp
        rw [heq]
        exact loadConfigs_some_some fs j2 jp2 hhp hpp

/-- Witness for C4 on a filesystem holding both configuration files. -/
theorem claim4_load_verbatim_witness :
    fs1.files.lookup hyperparamsFile = some hparams0
    ∧ (loadConfigs fs1).1.1 = hparams0
    ∧ Event.writeFile hyperparamsFile hparams_default
        ∉ (main collab0 false 1 fs1).events
    ∧ loadConfigs (loadConfigs fs1).2.1
        = ((loadConfigs fs1).1, (loadConfigs fs1).2.1, []) :=
  ⟨rfl,
   ((claim4_load_verbatim collab0 false 1 fs1 hparams0 params_default).1
     rfl).1,
   ((claim4_load_verbatim collab0 false 1 fs1 hparams0 params_default).1
     rfl).2 hparams_default,
   (claim4_load_verbatim collab0 false 1 fs1 hparams0 params_default).2.2⟩

/-- C7: at the start of main an assertion aborts the process whenever CUDA
support is detected, before any configuration loading or training; when it
is not detected the assertion passes and the run proceeds with the rest of
main. -/
theorem claim7_cuda_assert (collab : Collab) (tf : Nat) (fs : FS) :
    main collab true tf fs
        = { error := some PyError.assertionError, fs := fs, events := [] }
    ∧ main collab false tf fs = mainBody collab tf fs :=
  ⟨rfl, rfl⟩

/-- C10: importing the module sets CUDA_VISIBLE_DEVICES to -1 and modifies
no other environment variable. -/
theorem claim10_module_env (env : Env) :
    moduleLoad env "CUDA_VISIBLE_DEVICES" = some "-1"
    ∧ ∀ k, k ≠ "CUDA_VISIBLE_DEVICES" → moduleLoad env k = env k := by
  constructor
  · simp [moduleLoad]
  · intro k hk
    simp [moduleLoad, hk]

/-- Witness for C10 at the empty environment and the variable PATH. -/
theorem claim10_module_env_witness :
    moduleLoad (fun _ => none) "CUDA_VISIBLE_DEVICES" = some "-1"
    ∧ "PATH" ≠ "CUDA_VISIBLE_DEVICES"
    ∧ moduleLoad (fun _ => none) "PATH" = none :=
  ⟨(claim10_module_env (fun _ => none)).1, by decide,
   (claim10_module_env (fun _ => none)).2 "PATH" (by decide)⟩

/-- C1 evaluated at the failing input TEST_FOLD = 0 on a fresh filesystem:
the claim says the three-fold loop performs three train and eval runs into
fold1, fold2 and fold3 so that all three subdirectories exist afterwards,
but the run aborts with the TypeError of the six-argument call to
train_and_eval_fn during the first iteration: only fold1 was created, fold2
and fold3 do not exist, and no train-and-evaluate call ever happened. -/
theorem claim1_fold_zero_aborts :
    (main collab0 false 0 fs0).error = some foldZeroCallError
    ∧ (main collab0 false 0 fs0).fs.dirs = [foldDir 1]
    ∧ (main collab0 false 0 fs0).fs.dirExists (foldDir 2) = false
    ∧ (main collab0 false 0 fs0).fs.dirExists (foldDir 3) = false
    ∧ (main collab0 false 0 fs0).events.all (fun e => !e.isTrainEval)
        = true :=
  ⟨by decide, by decide, by decide, by decide, by decide⟩

/-- C5: with a nonzero TEST_FOLD, a hyperparameter file holding an object
with a batch size, and the per-fold directory not yet present, main performs
exactly one train-and-evaluate pass for that fold, creates exactly the one
subdirectory fold<TEST_FOLD>, and that subdirectory is the model directory
of the run. -/
theorem claim5_single_fold (collab : Collab) (tf : Nat) (fs : FS)
    (fields : List (String × Json)) (bs : Json)
    (h0 : tf ≠ 0)
    (hhp : fs.files.lookup hyperparamsFile = some (Json.obj fields))
    (hbs : fields.lookup "batch_size" = some bs)
    (hdir : fs.dirExists (foldDir tf) = false) :
    (main collab false tf fs).error = none
    ∧ (main collab false tf fs).events.filter Event.isMakedirs
        = [Event.makedirs (foldDir tf)]
    ∧ (∃ p, (main collab false tf fs).events.filter Event.isTrainEval
        = [Event.trainAndEvaluate (foldDir tf) p (Json.obj fields)])
    ∧ (main collab false tf fs).fs.dirs = foldDir tf :: fs.dirs := by
  rw [main_not_cuda]
  unfold mainBody
  rcases hpp : fs.files.lookup paramsFile with _ | jp
  · simp only [loadConfigs_some_none fs (Json.obj fields) hhp hpp]
    rw [mainFoldPhase_nonzero_ok collab params_default fields bs tf
      (fs.writeFile paramsFile params_default)
      [Event.writeFile paramsFile params_default] h0 hbs hdir]
    refine ⟨rfl, ?_, ⟨params_default, ?_⟩, rfl⟩
    · simp [List.filter, Event.isMakedirs, Event.isTrainEval, Event.isWrite]
    · simp [List.filter, Event.isMakedirs, Event.isTrainEval, Event.isWrite]
  · simp only [loadConfigs_some_some fs (Json.obj fields) jp hhp hpp]
    rw [mainFoldPhase_nonzero_ok collab jp fields bs tf fs [] h0 hbs hdir]
    refine ⟨rfl, ?_, ⟨jp, ?_⟩, rfl⟩
    · simp [List.filter, Event.isMakedirs, Event.isTrainEval, Event.isWrite]
    · simp [List.filter, Event.isMakedirs, Event.isTrainEval, Event.isWrite]

/-- Witness for C5 at fold 2 on a prepared filesystem. -/
theorem claim5_single_fold_witness :
    fs1.files.lookup hyperparamsFile
        = some (Json.obj [("batch_size", Json.num 16)])
    ∧ (main collab0 false 2 fs1).error = none
    ∧ (main collab0 false 2 fs1).events.filter Event.isMakedirs
        = [Event.makedirs (foldDir 2)]
    ∧ (∃ p, (main collab0 false 2 fs1).events.filter Event.isTrainEval
        = [Event.trainAndEvaluate (foldDir 2) p
            (Json.obj [("batch_size", Json.num 16)])])
    ∧ (main collab0 false 2 fs1).fs.dirs = foldDir 2 :: fs1.dirs := by
  have h := claim5_single_fold collab0 2 fs1 [("batch_size", Json.num 16)]
    (Json.num 16) (by decide) rfl rfl rfl
  exact ⟨rfl, h.1, h.2.1, h.2.2.1, h.2.2.2⟩

/-- Dataset reading is reached by the fold phase for every nonzero fold. -/
lemma readDataset_mem_mainFoldPhase (collab : Collab) (params hparams : Json)
    (tf : Nat) (fs : FS) (tr : List Event) (h0 : tf ≠ 0) :
    Event.readDataset DATA_DIR tf
      ∈ (mainFoldPhase collab params hparams tf fs tr).events := by
  unfold mainFoldPhase
  rw [if_neg h0]
  cases htr : train_and_eval_fn collab params hparams
      (collab.read_dataset_from_dir DATA_DIR tf).1
      (collab.read_dataset_from_dir DATA_DIR tf).2.1
      (collab.read_dataset_from_dir DATA_DIR tf).2.2.1
      (collab.read_dataset_from_dir DATA_DIR tf).2.2.2 (foldDir tf) with
  | error e => simp [htr]
  | ok r =>
      obtain ⟨est, tsp, esp⟩ := r
      simp [htr, do_print_eval]

/-- C8: creating the per-fold model directory is idempotent: when the
directory already exists the creation step changes nothing and raises no
error, the run proceeding to the dataset read; when it does not exist it is
created. -/
theorem claim8_mkdir_idempotent (collab : Collab) (tf fold : Nat) (fs : FS)
    (h0 : tf ≠ 0) :
    (fs.dirExists (foldDir fold) = true → ensureModelDir fs fold = (fs, []))
    ∧ (fs.dirExists (foldDir fold) = false →
        (ensureModelDir fs fold).1.dirs = foldDir fold :: fs.dirs)
    ∧ (ensureModelDir fs fold).1.dirExists (foldDir fold) = true
    ∧ (fs.dirExists (foldDir tf) = true →
        Event.readDataset DATA_DIR tf ∈ (main collab false tf fs).events) := by
  refine ⟨?_, ?_, ?_, ?_⟩
  · intro h
    simp [ensureModelDir, h]
  · intro h
    simp [ensureModelDir, h, FS.makedirs]
  · by_cases h : fs.dirExists (foldDir fold)
    · simp [ensureModelDir, h]
    · simp only [Bool.not_eq_true] at h
      simp only [FS.dirExists, List.contains, List.elem_eq_mem,
        decide_eq_false_iff_not] at h
      simp [ensureModelDir, FS.dirExists, FS.makedirs, h]
  · intro h
    rw [main_not_cuda]
    unfold mainBody
    exact readDataset_mem_mainFoldPhase collab _ _ tf _ _ h0

/-- Witness for C8 at fold 1 with the directory already present. -/
theorem claim8_mkdir_idempotent_witness :
    fs2.dirExists (foldDir 1) = true
    ∧ ensureModelDir fs2 1 = (fs2, [])
    ∧ (ensureModelDir fs2 1).1.dirExists (foldDir 1) = true
    ∧ Event.readDataset DATA_DIR 1 ∈ (main collab0 false 1 fs2).events := by
  have h := claim8_mkdir_idempotent collab0 1 1 fs2 (by decide)
  exact ⟨by decide, h.1 (by decide), h.2.2.1, h.2.2.2 (by decide)⟩

/-- C9: on a first run, where the hyperparameter file is absent, the value
written and bound is the empty JSON list, which is not an object and so has
no batch-size key, while train_and_eval_fn unconditionally subscripts the
hyperparameters with the key batch_size; on such a run that lookup finds no
matching key and raises instead. -/
theorem claim9_first_run_batch_size (collab : Collab) (params : Json)
    (a b c d : List Json) (md : String) (fs : FS)
    (habs : fs.files.lookup hyperparamsFile = none) :
    (loadConfigs fs).1.1 = Json.arr []
    ∧ ((loadConfigs fs).2.1).files.lookup hyperparamsFile
        = some (Json.arr [])
    ∧ (∀ fields, Json.arr [] ≠ Json.obj fields)
    ∧ jsonIndexStr (Json.arr []) "batch_size"
        = Except.error (PyError.typeError
            "list indices must be integers or slices, not str")
    ∧ train_and_eval_fn collab params (Json.arr []) a b c d md
        = Except.error (PyError.typeError
            "list indices must be integers or slices, not str") := by
  refine ⟨?_, ?_, fun fields h => Json.noConfusion h, rfl, rfl⟩
  · rcases hpp : fs.files.lookup paramsFile with _ | jp
    · rw [loadConfigs_none_none fs habs hpp]
      rfl
    · rw [loadConfigs_none_some fs jp habs hpp]
      rfl
  · rcases hpp : fs.files.lookup paramsFile with _ | jp
    · rw [loadConfigs_none_none fs habs hpp]
      rw [lookup_writeFile_ne _ _ _ _ hyperparamsFile_ne_paramsFile]
      exact lookup_writeFile_self _ _ _
    · rw [loadConfigs_none_some fs jp habs hpp]
      exact lookup_writeFile_self _ _ _

/-- Witness for C9 on the empty filesystem. -/
theorem claim9_first_run_batch_size_witness :
    fs0.files.lookup hyperparamsFile = none
    ∧ (loadConfigs fs0).1.1 = Json.arr []
    ∧ Json.arr [] ≠ Json.obj []
    ∧ jsonIndexStr (Json.arr []) "batch_size"
        = Except.error (PyError.typeError
            "list indices must be integers or slices, not str")
    ∧ train_and_eval_fn collab0 params_default (Json.arr []) [] [] [] []
          (foldDir 1)
        = Except.error (PyError.typeError
            "list indices must be integers or slices, not str") := by
  have h := claim9_first_run_batch_size collab0 params_default [] [] [] []
    (foldDir 1) fs0 rfl
  exact ⟨rfl, h.1, h.2.2.1 [], h.2.2.2.1, h.2.2.2.2⟩

/-- C6 counterexample: on a first run the hyperparameter default that is
written and bound is the empty JSON list, which is not a JSON object, is
not a flat JSON object, and holds no batch-size record; and the parameter
default is not flat either. -/
theorem claim6_flat_schema_counterexample :
    (loadConfigs fs0).1.1 = Json.arr []
    ∧ ((loadConfigs fs0).2.1).files.lookup hyperparamsFile
        = some (Json.arr [])
    ∧ Json.isObj (Json.arr []) = false
    ∧ Json.isFlatObj (Json.arr []) = false
    ∧ jsonIndexStr (Json.arr []) "batch_size"
        = Except.error (PyError.typeError
            "list indices must be integers or slices, not str")
    ∧ Json.isFlatObj params_default = false :=
  ⟨rfl, rfl, rfl, rfl, rfl, rfl⟩

/-- C6 amended: both configuration files carry the schema of the source
defaults, but only the parameter default is a JSON object, and it is not
flat: its ellipse_params field is itself an object (and two further fields
are arrays).  The hyperparameter default written on a first run is the
empty JSON list, not an object with a batch size. -/
theorem claim6_amended_schema :
    hparams_default = Json.arr []
    ∧ Json.isObj hparams_default = false
    ∧ Json.isObj params_default = true
    ∧ Json.keys params_default
        = ["first_bin", "nbins", "bin_size", "variance", "ellipse_params",
           "extended_feature_bins", "extended_vector_length"]
    ∧ (∃ ep, jsonIndexStr params_default "ellipse_params" = Except.ok ep
        ∧ Json.isObj ep = true)
    ∧ Json.isFlatObj params_default = false
    ∧ (loadConfigs fs0).2.2
        = [Event.writeFile hyperparamsFile hparams_default,
           Event.writeFile paramsFile params_default] :=
  ⟨rfl, rfl, rfl, rfl, ⟨_, rfl, rfl⟩, rfl, rfl⟩

end FFCC
